import Mathlib

/-!
Shallow embedding of the petneeds order/payment/webhook reconciliation core.

Rows of the relational store are Lean structures; each table is a list of
rows; `findOne` is `List.find?`; an `update` re-writes every row with the
matching primary key; a transaction that rolls back returns the original
store.  Statuses are the literal strings used by the JavaScript source.
Timestamps are abstract `Nat` instants supplied by the caller (`now`).
-/

namespace Petneeds

/-- A product row (`src/models/Product`): price and stock as integers. -/
structure Product where
  id : Nat
  name : String
  sku : String
  price : Int
  stock_quantity : Int
  is_active : Bool
deriving DecidableEq, Repr

/-- An address row: only the fields checkout consults. -/
structure Address where
  id : Nat
  user_id : Nat
  is_active : Bool
deriving DecidableEq, Repr

/-- A cart row (`src/models/Cart.js`): unique per (user_id, product_id). -/
structure CartItem where
  id : Nat
  user_id : Nat
  product_id : Nat
  quantity : Int
deriving DecidableEq, Repr

/-- An order row (`src/models/Order.js`). -/
structure Order where
  id : Nat
  order_number : String
  user_id : Nat
  address_id : Nat
  subtotal : Int
  shipping_cost : Int
  tax_amount : Int
  discount_amount : Int
  total_amount : Int
  status : String
  payment_status : String
  shipping_method : Option String
  notes : Option String
  ordered_at : Nat
deriving DecidableEq, Repr

/-- An order line item row (`src/models/OrderItem`): immutable snapshot. -/
structure OrderItem where
  id : Nat
  order_id : Nat
  product_id : Nat
  quantity : Int
  unit_price : Int
  total_price : Int
  product_name : String
  product_sku : String
deriving DecidableEq, Repr

/-- The JSON body of a Midtrans webhook call.  `none` models an absent
(or falsy) key, matching the `x || y` fallbacks of the source. -/
structure Notif where
  order_id : String
  transaction_id : Option String
  transaction_status : String
  fraud_status : Option String
  payment_type : Option String
  signature_key : Option String
deriving DecidableEq, Repr

/-- The `raw_response` JSON column of a payment, restricted to the keys the
webhook merge `\x7b...payment.raw_response, ...notification\x7d` can touch;
`creation` stands for the gateway-creation keys the merge preserves. -/
structure RawResp where
  order_id : Option String := none
  transaction_id : Option String := none
  transaction_status : Option String := none
  fraud_status : Option String := none
  payment_type : Option String := none
  signature_key : Option String := none
  creation : Option String := none
deriving DecidableEq, Repr

/-- A payment row (`src/models/Payment.js`). -/
structure Payment where
  id : Nat
  order_id : Nat
  user_id : Nat
  payment_method : Option String
  midtrans_transaction_id : Option String
  midtrans_order_id : Option String
  amount : Int
  status : String
  fraud_status : Option String
  payment_date : Option Nat
  expiry_time : Option Nat
  payment_url : Option String
  signature_key : Option String
  raw_response : RawResp
  webhook_logs : List (Nat × Notif)
deriving DecidableEq, Repr

/-- The relational store: one list of live rows per table. -/
structure Store where
  products : List Product
  addresses : List Address
  carts : List CartItem
  orders : List Order
  orderItems : List OrderItem
  payments : List Payment
deriving DecidableEq, Repr

/-- `Product.findByPk` -/
def findProduct (st : Store) (i : Nat) : Option Product :=
  st.products.find? (fun p => p.id == i)

/-- `Order.findByPk` -/
def findOrder (st : Store) (i : Nat) : Option Order :=
  st.orders.find? (fun o => o.id == i)

/-- `Payment.findOne \x7bwhere: \x7bid\x7d\x7d` by primary key. -/
def findPayment (st : Store) (i : Nat) : Option Payment :=
  st.payments.find? (fun p => p.id == i)

/-! ## Notification Reconciler (`src/controllers/webhookController.js`) -/

/-- Outcome of the webhook handler: HTTP 200 or HTTP 404. -/
inductive WebhookResult where
  | success
  | notFound
deriving DecidableEq, Repr

/-- The `Op.or` disjunction of the webhook's `Payment.findOne`: internal
order id (integer column against the string payload), gateway order id, or
gateway transaction id. -/
def paymentMatches (n : Notif) (p : Payment) : Bool :=
  (toString p.order_id == n.order_id)
    || (p.midtrans_order_id == some n.order_id)
    || (match n.transaction_id with
        | some t => p.midtrans_transaction_id == some t
        | none => false)

/-- The `switch (transaction_status)` of the webhook handler: given the
incoming status and the order's current `(status, payment_status)`,
return the new pair. -/
def orderTransition (ts status payment_status : String) : String × String :=
  if ts == "settlement" || ts == "capture" then
    (if status == "pending" then "confirmed" else status, "paid")
  else if ts == "pending" then
    (status, "pending")
  else if ts == "cancel" || ts == "deny" || ts == "failure" || ts == "expire" then
    (if status == "pending" then "cancelled" else status, "failed")
  else if ts == "refund" || ts == "partial_refund" then
    (status, "refunded")
  else
    (status, payment_status)

/-- The JavaScript spread `\x7b...payment.raw_response, ...notification\x7d`:
keys present in the notification override, others are retained. -/
def mergeRaw (r : RawResp) (n : Notif) : RawResp :=
  { order_id := some n.order_id
    transaction_id := n.transaction_id.or r.transaction_id
    transaction_status := some n.transaction_status
    fraud_status := n.fraud_status.or r.fraud_status
    payment_type := n.payment_type.or r.payment_type
    signature_key := n.signature_key.or r.signature_key
    creation := r.creation }

/-- The payment `updateData` built by the webhook handler. -/
def applyNotifToPayment (now : Nat) (n : Notif) (p : Payment) : Payment :=
  { p with
    status := n.transaction_status
    fraud_status := n.fraud_status.or p.fraud_status
    payment_method := n.payment_type.or p.payment_method
    midtrans_transaction_id := n.transaction_id.or p.midtrans_transaction_id
    signature_key := n.signature_key.or p.signature_key
    raw_response := mergeRaw p.raw_response n
    webhook_logs := p.webhook_logs ++ [(now, n)]
    payment_date :=
      if n.transaction_status == "capture" || n.transaction_status == "settlement"
      then some now else p.payment_date
    expiry_time :=
      if n.transaction_status == "expire" then some now else p.expiry_time }

/-- `midtransNotification` (`src/controllers/webhookController.js`,
lines 134-261): resolve the payment by the three-key disjunction, update
it, then update the associated order per the transition table. -/
def midtransNotification (now : Nat) (n : Notif) (st : Store) :
    Store × WebhookResult :=
  match st.payments.find? (paymentMatches n) with
  | none => (st, WebhookResult.notFound)
  | some p =>
    let p' := applyNotifToPayment now n p
    let st' := { st with
      payments := st.payments.map (fun q => if q.id == p.id then p' else q) }
    match findOrder st' p.order_id with
    | none => (st', WebhookResult.success)
    | some o =>
      let ns := orderTransition n.transaction_status o.status o.payment_status
      let o' := { o with status := ns.1, payment_status := ns.2 }
      ({ st' with
          orders := st'.orders.map (fun q => if q.id == o.id then o' else q) },
        WebhookResult.success)

/-! ## Checkout Orchestrator (`createOrder`, orderController lines 433-654) -/

/-- Outcome of `createOrder`: HTTP 201, 400, 404 or 500 with the source's
message strings. -/
inductive CreateOrderResult where
  | created (order : Order) (items : List OrderItem)
  | badRequest (msg : String)
  | notFound (msg : String)
  | serverError (msg : String)
deriving DecidableEq, Repr

/-- A checkout request after express-validator has passed. -/
structure CreateOrderReq where
  address_id : Nat
  shipping_method : Option String
  notes : Option String
  cart_item_ids : Option (List Nat)
deriving DecidableEq, Repr

/-- Cart selection: explicit non-empty id list filters the caller's rows,
otherwise all of the caller's cart rows are used. -/
def selectedCarts (st : Store) (uid : Nat) (ids : Option (List Nat)) :
    List CartItem :=
  match ids with
  | some l =>
    if 0 < l.length then
      st.carts.filter (fun c => l.contains c.id && c.user_id == uid)
    else
      st.carts.filter (fun c => c.user_id == uid)
  | none => st.carts.filter (fun c => c.user_id == uid)

/-- The `include: Product` join: each cart row with its product read at
query time (the snapshot instance later used for stock updates). -/
def joinProducts (st : Store) (cs : List CartItem) :
    List (CartItem × Option Product) :=
  cs.map (fun c => (c, findProduct st c.product_id))

/-- Message for an inactive or missing product. -/
def unavailableMsg (name : String) : String :=
  "Product \"" ++ name ++ "\" is no longer available"

/-- Message for insufficient stock, naming the product and the quantity
still available. -/
def insufficientStockMsg (name : String) (available : Int) : String :=
  "Insufficient stock for \"" ++ name ++ "\". Available: " ++ toString available

/-- The validation loop of `createOrder`: first failing line aborts with
its message; on success return the lines paired with their products. -/
def validateItems :
    List (CartItem × Option Product) → Except String (List (CartItem × Product))
  | [] => Except.ok []
  | (c, po) :: rest =>
    match po with
    | none => Except.error (unavailableMsg ("Unknown"))
    | some p =>
      if !p.is_active then
        Except.error (unavailableMsg p.name)
      else if p.stock_quantity < c.quantity then
        Except.error (insufficientStockMsg p.name p.stock_quantity)
      else
        match validateItems rest with
        | Except.error m => Except.error m
        | Except.ok r => Except.ok ((c, p) :: r)

/-- Subtotal accumulated by the validation loop: live price × quantity. -/
def subtotalOf (valid : List (CartItem × Product)) : Int :=
  (valid.map (fun x => x.2.price * x.1.quantity)).sum

/-- The order-number loop: up to 10 candidates from the generator, first
one not already used by an existing order; `none` when all 10 collide. -/
def pickOrderNumber (gen : Nat → String) (orders : List Order) :
    Option String :=
  ((List.range 10).map gen).find?
    (fun num => orders.all (fun o => !(o.order_number == num)))

/-- `OrderItem.create` inside the checkout loop: snapshot of the joined
product instance. -/
def buildOrderItem (itemIds : Nat → Nat) (orderId : Nat) (idx : Nat)
    (x : CartItem × Product) : OrderItem :=
  { id := itemIds idx
    order_id := orderId
    product_id := x.2.id
    quantity := x.1.quantity
    unit_price := x.2.price
    total_price := x.2.price * x.1.quantity
    product_name := x.2.name
    product_sku := x.2.sku }

/-- The stock-decrement loop: each line writes
`snapshot.stock_quantity - quantity` into the row with the snapshot's id
(the snapshot was read at join time, before any decrement of this
checkout). -/
def applyDecrements (ps : List Product) :
    List (CartItem × Product) → List Product
  | [] => ps
  | (c, p) :: rest =>
    applyDecrements
      (ps.map (fun q =>
        if q.id == p.id then
          { q with stock_quantity := p.stock_quantity - c.quantity }
        else q))
      rest

/-- The order header inserted by `createOrder` (part_008 lines 542-584):
subtotal from the validated lines, zero shipping/tax/discount, total =
subtotal + 0 + 0 - 0, and model defaults pending/pending. -/
def builtOrder (now uid : Nat) (req : CreateOrderReq) (oid : Nat)
    (num : String) (valid : List (CartItem × Product)) : Order :=
  { id := oid
    order_number := num
    user_id := uid
    address_id := req.address_id
    subtotal := subtotalOf valid
    shipping_cost := 0
    tax_amount := 0
    discount_amount := 0
    total_amount := subtotalOf valid + 0 + 0 - 0
    status := "pending"
    payment_status := "pending"
    shipping_method := req.shipping_method
    notes := req.notes
    ordered_at := now }

/-- The line items inserted by `createOrder`, one per validated line. -/
def builtItems (iids : Nat → Nat) (oid : Nat)
    (valid : List (CartItem × Product)) : List OrderItem :=
  (List.range valid.length).zipWith
    (fun idx x => buildOrderItem iids oid idx x) valid

/-- The store committed by a successful checkout: decremented stock,
consumed cart lines deleted, order header and line items appended. -/
def checkoutStore (uid : Nat) (st : Store)
    (valid : List (CartItem × Product)) (o : Order)
    (items : List OrderItem) : Store :=
  { st with
    products := applyDecrements st.products valid
    carts := st.carts.filter
      (fun cl => !((valid.map (fun x => x.1.id)).contains cl.id
                    && cl.user_id == uid))
    orders := st.orders ++ [o]
    orderItems := st.orderItems ++ items }

/-- `createOrder` (part_008 lines 433-654): validate address, select and
validate cart lines, compute totals, pick an order number, then in one
transaction insert the order and its items, decrement stock and delete
the consumed cart lines; every failure rolls back to the input store. -/
def createOrder (gen : Nat → String) (now : Nat) (uid : Nat)
    (req : CreateOrderReq) (newOrderId : Nat) (itemIds : Nat → Nat)
    (st : Store) : Store × CreateOrderResult :=
  match st.addresses.find?
      (fun a => a.id == req.address_id && a.user_id == uid && a.is_active) with
  | none => (st, CreateOrderResult.notFound ("Address not found or inactive"))
  | some _ =>
    let cartItems := selectedCarts st uid req.cart_item_ids
    if cartItems.length == 0 then
      (st, CreateOrderResult.badRequest ("No items in cart"))
    else
      match validateItems (joinProducts st cartItems) with
      | Except.error m => (st, CreateOrderResult.badRequest m)
      | Except.ok valid =>
        match pickOrderNumber gen st.orders with
        | none =>
          (st, CreateOrderResult.serverError ("Failed to generate unique order number"))
        | some orderNumber =>
          let order := builtOrder now uid req newOrderId orderNumber valid
          let items := builtItems itemIds newOrderId valid
          (checkoutStore uid st valid order items,
            CreateOrderResult.created order items)

/-! ## Order Cancellation (`cancelOrder`, part_008 lines 656-745) -/

/-- Outcome of `cancelOrder`. -/
inductive CancelResult where
  | ok
  | notFound
  | invalidState (msg : String)
deriving DecidableEq, Repr

/-- The stock-restoration loop: each line item re-fetches its product by
primary key from the current state and adds the line's quantity; a line
whose product is missing is skipped. -/
def restoreStock (ps : List Product) : List OrderItem → List Product
  | [] => ps
  | it :: rest =>
    match ps.find? (fun p => p.id == it.product_id) with
    | none => restoreStock ps rest
    | some p =>
      restoreStock
        (ps.map (fun q =>
          if q.id == it.product_id then
            { q with stock_quantity := p.stock_quantity + it.quantity }
          else q))
        rest

/-- `cancelOrder` (part_008 lines 656-745): owner-scoped lookup, status
gate, then one transaction that marks the order cancelled, restores each
line's stock and fails a pending payment_status. -/
def cancelOrder (uid oid : Nat) (st : Store) : Store × CancelResult :=
  match st.orders.find? (fun o => o.id == oid && o.user_id == uid) with
  | none => (st, CancelResult.notFound)
  | some o =>
    if !(o.status == "pending" || o.status == "confirmed") then
      (st, CancelResult.invalidState ("Order cannot be cancelled at this stage"))
    else
      let items := st.orderItems.filter (fun it => it.order_id == o.id)
      let products' := restoreStock st.products items
      let o' :=
        if o.payment_status == "pending" then
          { o with status := "cancelled", payment_status := "failed" }
        else
          { o with status := "cancelled" }
      ({ st with
          products := products'
          orders := st.orders.map (fun q => if q.id == o.id then o' else q) },
        CancelResult.ok)

/-! ## Payment Initiator (`createPayment`, addressController lines 985-1110) -/

/-- The Gateway Client's answer to `createTransaction`. -/
inductive GatewayResp where
  | ok (token redirect_url : String)
  | err (e : String)
deriving DecidableEq, Repr

/-- Outcome of `createPayment`: HTTP 201, 404, 409, 400 or 500. -/
inductive PayResult where
  | created (paymentId : Nat) (token : String)
  | notFound (msg : String)
  | conflict (msg : String)
  | invalidState (msg : String)
  | dependencyFailure (msg : String)
deriving DecidableEq, Repr

/-- `createPayment` (addressController lines 985-1110): owner-scoped order
lookup, duplicate-payment check, pending-status check, gateway call, and
only then the Payment insert. -/
def createPayment (uid orderId : Nat) (gw : GatewayResp)
    (newPaymentId : Nat) (st : Store) : Store × PayResult :=
  match st.orders.find? (fun o => o.id == orderId && o.user_id == uid) with
  | none => (st, PayResult.notFound ("Order not found"))
  | some o =>
    match st.payments.find? (fun p => p.order_id == orderId) with
    | some _ => (st, PayResult.conflict ("Payment already exists for this order"))
    | none =>
      if !(o.status == "pending") then
        (st, PayResult.invalidState ("Order is not in pending status"))
      else
        match gw with
        | GatewayResp.err e =>
          (st, PayResult.dependencyFailure ("Failed to create payment transaction: " ++ e))
        | GatewayResp.ok token redirect =>
          let payment : Payment :=
            { id := newPaymentId
              order_id := o.id
              user_id := uid
              payment_method := some ("midtrans")
              midtrans_transaction_id := none
              midtrans_order_id := some o.order_number
              amount := o.total_amount
              status := "pending"
              fraud_status := none
              payment_date := none
              expiry_time := none
              payment_url := some redirect
              signature_key := none
              raw_response := { creation := some token }
              webhook_logs := [] }
          ({ st with payments := st.payments ++ [payment] },
            PayResult.created newPaymentId token)

/-- The spec's prioritized lookup, written from the spec's words for
comparison with the source's single disjunctive `findOne`: try an internal
order id match first, then a gateway order-id match, then a gateway
transaction-id match. -/
def resolvePrioritized (n : Notif) (ps : List Payment) : Option Payment :=
  (ps.find? (fun p => toString p.order_id == n.order_id)).or
    ((ps.find? (fun p => p.midtrans_order_id == some n.order_id)).or
      (ps.find? (fun p =>
        match n.transaction_id with
        | some t => p.midtrans_transaction_id == some t
        | none => false)))

/-! ## Helper lemmas -/

/-- Updating the row found by `find?` keeps it the (value of the) first
match: rows before it are unchanged and still fail the predicate, and the
update preserves the predicate on the found row. -/
theorem find?_map_update {α : Type} (f : α → α) (pred : α → Bool)
    (l : List α) (p : α) (h : l.find? pred = some p)
    (hf : ∀ q, f q = q ∨ f q = f p) (hfp : pred (f p) = true) :
    (l.map f).find? pred = some (f p) := by
  induction l with
  | nil => simp at h
  | cons q rest ih =>
    by_cases hq : pred q = true
    · have hpq : q = p := by
        rw [List.find?_cons_of_pos _ hq] at h
        exact Option.some_injective _ h
      subst hpq
      simp [List.find?_cons_of_pos _ hfp]
    · rw [List.find?_cons_of_neg _ (by simpa using hq)] at h
      rcases hf q with hfq | hfq
      · rw [List.map_cons, List.find?_cons_of_neg _ (by simp [hfq, hq]),
          ih h]
      · rw [List.map_cons, hfq, List.find?_cons_of_pos _ hfp]

/-- In a list with pairwise-distinct keys, `find?` by a member's key
returns that member. -/
theorem find?_key_of_nodup {α : Type} (key : α → Nat) (l : List α) (p : α)
    (hmem : p ∈ l) (hnd : (l.map key).Nodup) :
    l.find? (fun q => key q == key p) = some p := by
  induction l with
  | nil => simp at hmem
  | cons q rest ih =>
    rcases List.mem_cons.mp hmem with hqp | hmem'
    · subst hqp
      exact List.find?_cons_of_pos _ (by simp)
    · by_cases hk : key q = key p
      · exfalso
        have : key p ∈ rest.map key := List.mem_map_of_mem key hmem'
        rw [List.map_cons, List.nodup_cons] at hnd
        exact hnd.1 (hk ▸ this)
      · rw [List.find?_cons_of_neg _ (by simpa using hk)]
        exact ih hmem' (by
          rw [List.map_cons, List.nodup_cons] at hnd
          exact hnd.2)

/-- Replacing every row whose key is `i` with a value all such rows
already equal is the identity. -/
theorem map_update_id {α : Type} (key : α → Nat) (l : List α) (i : Nat)
    (v : α) (h : ∀ q ∈ l, key q = i → q = v) :
    l.map (fun q => if key q == i then v else q) = l := by
  have : ∀ q ∈ l, (fun q => if key q == i then v else q) q = id q := by
    intro q hq
    by_cases hk : key q = i
    · simp [hk, (h q hq hk).symm]
    · simp [hk]
  rw [List.map_congr_left this, List.map_id]

/-- `Option.or` absorbs a repeated first argument. -/
theorem or_or_self {α : Type} (a b : Option α) : a.or (a.or b) = a.or b := by
  cases a <;> rfl

/-- The webhook's order-state table is idempotent: feeding its output back
in with the same incoming status changes nothing. -/
theorem orderTransition_idem (ts s ps : String) :
    orderTransition ts (orderTransition ts s ps).1 (orderTransition ts s ps).2
      = orderTransition ts s ps := by
  unfold orderTransition
  cases hc1 : (ts == "settlement" || ts == "capture") with
  | true =>
    cases hs : (s == "pending") <;> simp [hc1, hs]
  | false =>
    cases hc2 : (ts == "pending") with
    | true => simp [hc1, hc2]
    | false =>
      cases hc3 : (ts == "cancel" || ts == "deny" || ts == "failure" || ts == "expire") with
      | true =>
        cases hs : (s == "pending") <;> simp [hc1, hc2, hc3, hs]
      | false =>
        cases hc4 : (ts == "refund" || ts == "partial_refund") <;>
          simp [hc1, hc2, hc3, hc4]

/-- Updating the rows with a member's key to a value with the same key
makes `find?` by that key return the new value. -/
theorem find?_id_map_self {α : Type} (key : α → Nat) (l : List α) (p v : α)
    (hmem : p ∈ l) (hkey : key v = key p) :
    (l.map (fun q => if key q == key p then v else q)).find?
        (fun q => key q == key p) = some v := by
  induction l with
  | nil => simp at hmem
  | cons q rest ih =>
    by_cases hk : key q = key p
    · rw [List.map_cons, if_pos (by simpa using hk),
        List.find?_cons_of_pos _ (by simpa using hkey)]
    · have hmem' : p ∈ rest := by
        rcases List.mem_cons.mp hmem with h | h
        · exact absurd (h ▸ rfl) hk
        · exact h
      rw [List.map_cons, if_neg (by simpa using hk),
        List.find?_cons_of_neg _ (by simpa using hk)]
      exact ih hmem'

/-- The webhook update keeps the updated payment matching the same
notification's lookup disjunction. -/
theorem paymentMatches_applyNotif (now : Nat) (n : Notif) (p : Payment)
    (h : paymentMatches n p = true) :
    paymentMatches n (applyNotifToPayment now n p) = true := by
  unfold paymentMatches at h ⊢
  unfold applyNotifToPayment
  cases ht : n.transaction_id with
  | none => simpa [ht, Option.or] using (by simpa [ht] using h)
  | some t => simp [ht, Option.or]

/-! ## Claim theorems -/

/-- C1: for every notification that resolves to a Payment (whose order
exists), the reconciler sets Payment.status to the incoming
transaction_status — whatever the prior status was — sets payment_date
exactly on capture/settlement and expiry_time exactly on expire, and
derives the order's payment_status and status per the table: paid/confirmed
for capture and settlement, pending for pending, failed/cancelled for the
cancel family, refunded for refunds, the order status moving only from
pending. -/
theorem c1_webhook_transition_table (now : Nat) (n : Notif) (st : Store)
    (p : Payment) (o : Order)
    (hp : st.payments.find? (paymentMatches n) = some p)
    (ho : findOrder st p.order_id = some o) :
    (midtransNotification now n st).2 = WebhookResult.success ∧
    (∃ p', findPayment (midtransNotification now n st).1 p.id = some p' ∧
      p'.status = n.transaction_status ∧
      ((n.transaction_status = "capture" ∨ n.transaction_status = "settlement") →
        p'.payment_date = some now) ∧
      (¬(n.transaction_status = "capture" ∨ n.transaction_status = "settlement") →
        p'.payment_date = p.payment_date) ∧
      (n.transaction_status = "expire" → p'.expiry_time = some now) ∧
      (n.transaction_status ≠ "expire" → p'.expiry_time = p.expiry_time)) ∧
    (∃ o', findOrder (midtransNotification now n st).1 o.id = some o' ∧
      ((n.transaction_status = "capture" ∨ n.transaction_status = "settlement") →
        o'.payment_status = "paid" ∧
        o'.status = (if o.status = "pending" then "confirmed" else o.status)) ∧
      (n.transaction_status = "pending" →
        o'.payment_status = "pending" ∧ o'.status = o.status) ∧
      ((n.transaction_status = "cancel" ∨ n.transaction_status = "deny" ∨
        n.transaction_status = "failure" ∨ n.transaction_status = "expire") →
        o'.payment_status = "failed" ∧
        o'.status = (if o.status = "pending" then "cancelled" else o.status)) ∧
      ((n.transaction_status = "refund" ∨ n.transaction_status = "partial_refund") →
        o'.payment_status = "refunded" ∧ o'.status = o.status)) := by
  have hpmem : p ∈ st.payments := List.mem_of_find?_eq_some hp
  have homem : o ∈ st.orders := List.mem_of_find?_eq_some ho
  have hoid : o.id = p.order_id := by
    have := List.find?_some ho
    simpa using this
  have ho' :
      findOrder
        { st with
          payments :=
            st.payments.map
              (fun q => if q.id == p.id then applyNotifToPayment now n p else q) }
        p.order_id = some o := ho
  simp only [midtransNotification, hp, ho']
  refine ⟨trivial, ⟨applyNotifToPayment now n p, ?_, rfl, ?_, ?_, ?_, ?_⟩, ?_⟩
  · exact find?_id_map_self (fun x : Payment => x.id) st.payments p
      (applyNotifToPayment now n p) hpmem rfl
  · rintro (h | h) <;> simp [applyNotifToPayment, h]
  · intro h
    have h1 : n.transaction_status ≠ "capture" := fun hc => h (Or.inl hc)
    have h2 : n.transaction_status ≠ "settlement" := fun hc => h (Or.inr hc)
    simp [applyNotifToPayment, h1, h2]
  · intro h; simp [applyNotifToPayment, h]
  · intro h; simp [applyNotifToPayment, h]
  · refine ⟨{ o with
        status := (orderTransition n.transaction_status o.status o.payment_status).1,
        payment_status := (orderTransition n.transaction_status o.status o.payment_status).2 },
      ?_, ?_, ?_, ?_, ?_⟩
    · exact find?_id_map_self (fun x : Order => x.id) st.orders o
        { o with
          status := (orderTransition n.transaction_status o.status o.payment_status).1,
          payment_status := (orderTransition n.transaction_status o.status o.payment_status).2 }
        homem rfl
    · rintro (h | h) <;>
        exact ⟨by simp [orderTransition, h], by simp [orderTransition, h, beq_iff_eq]⟩
    · intro h
      exact ⟨by simp [orderTransition, h], by simp [orderTransition, h]⟩
    · rintro (h | h | h | h) <;>
        exact ⟨by simp [orderTransition, h], by simp [orderTransition, h, beq_iff_eq]⟩
    · rintro (h | h) <;>
        exact ⟨by simp [orderTransition, h], by simp [orderTransition, h]⟩

/-! ## Concrete fixtures for witnesses and counterexamples -/

/-- A payment already settled, attached to order 10. -/
def exP : Payment :=
  { id := 1, order_id := 10, user_id := 5, payment_method := some ("midtrans"),
    midtrans_transaction_id := some ("T1"), midtrans_order_id := some ("ORD-1"),
    amount := 300000, status := "settlement", fraud_status := some ("accept"),
    payment_date := some 3, expiry_time := none, payment_url := none,
    signature_key := none, raw_response := {}, webhook_logs := [] }

/-- Order 10, confirmed and paid. -/
def exO : Order :=
  { id := 10, order_number := "ORD-1", user_id := 5, address_id := 2,
    subtotal := 300000, shipping_cost := 0, tax_amount := 0,
    discount_amount := 0, total_amount := 300000, status := "confirmed",
    payment_status := "paid", shipping_method := none, notes := none,
    ordered_at := 0 }

/-- A store holding exactly order 10 and its settled payment. -/
def exSt : Store :=
  { products := [], addresses := [], carts := [], orders := [exO],
    orderItems := [], payments := [exP] }

/-- A stale `pending` notification for the settled payment. -/
def exNpend : Notif :=
  { order_id := "ORD-1", transaction_id := some ("T1"),
    transaction_status := "pending", fraud_status := none,
    payment_type := none, signature_key := none }

/-- Witness for C1: the stale `pending` notification resolves against the
already-settled payment and is processed successfully (and, per the
theorem, drags the payment back to `pending`). -/
theorem c1_webhook_transition_table_witness :
    exSt.payments.find? (paymentMatches exNpend) = some exP ∧
    findOrder exSt exP.order_id = some exO ∧
    (midtransNotification 9 exNpend exSt).2 = WebhookResult.success :=
  ⟨by decide, by decide,
    (c1_webhook_transition_table 9 exNpend exSt exP exO (by decide) (by decide)).1⟩

/-- The fields of an order the webhook handler must never touch:
everything except `status` and `payment_status`. -/
def orderFrame (o : Order) :
    Nat × String × Nat × Nat × Int × Int × Int × Int × Int ×
      Option String × Option String × Nat :=
  (o.id, o.order_number, o.user_id, o.address_id, o.subtotal,
    o.shipping_cost, o.tax_amount, o.discount_amount, o.total_amount,
    o.shipping_method, o.notes, o.ordered_at)

/-- C9: the Notification Reconciler never mutates stock — for every
notification and store, products, carts, addresses and order line items
are exactly as before, and every order row in the result agrees with an
input order row on all fields other than status and payment_status. -/
theorem c9_webhook_frame (now : Nat) (n : Notif) (st : Store) :
    (midtransNotification now n st).1.products = st.products ∧
    (midtransNotification now n st).1.carts = st.carts ∧
    (midtransNotification now n st).1.addresses = st.addresses ∧
    (midtransNotification now n st).1.orderItems = st.orderItems ∧
    ∀ o' ∈ (midtransNotification now n st).1.orders,
      ∃ o ∈ st.orders, orderFrame o' = orderFrame o := by
  cases hp : st.payments.find? (paymentMatches n) with
  | none =>
    simp only [midtransNotification, hp]
    exact ⟨trivial, trivial, trivial, trivial, fun o' ho' => ⟨o', ho', rfl⟩⟩
  | some p =>
    cases ho : findOrder
        { st with
          payments :=
            st.payments.map
              (fun q => if q.id == p.id then applyNotifToPayment now n p else q) }
        p.order_id with
    | none =>
      simp only [midtransNotification, hp, ho]
      exact ⟨trivial, trivial, trivial, trivial, fun o' ho' => ⟨o', ho', rfl⟩⟩
    | some o =>
      simp only [midtransNotification, hp, ho]
      refine ⟨trivial, trivial, trivial, trivial, fun o' ho' => ?_⟩
      rcases List.mem_map.mp ho' with ⟨q, hq, hq'⟩
      by_cases hid : (q.id == o.id) = true
      · refine ⟨o, List.mem_of_find?_eq_some ho, ?_⟩
        rw [← hq', if_pos hid]
        rfl
      · refine ⟨q, hq, ?_⟩
        rw [← hq', if_neg hid]

/-- Applying the same notification twice to a payment only appends one
more log entry the second time. -/
theorem applyNotif_idem (now : Nat) (n : Notif) (p : Payment) :
    applyNotifToPayment now n (applyNotifToPayment now n p)
      = { applyNotifToPayment now n p with
          webhook_logs := (applyNotifToPayment now n p).webhook_logs ++ [(now, n)] } := by
  unfold applyNotifToPayment mergeRaw
  split_ifs <;> simp [or_or_self]

/-- When the notification resolves to payment `p` whose order `o` exists,
`midtransNotification` is exactly: update `p` by the notification and move
`o` through the transition table. -/
theorem midtrans_resolved_eq (now : Nat) (n : Notif) (st : Store)
    (p : Payment) (o : Order)
    (hp : st.payments.find? (paymentMatches n) = some p)
    (ho : findOrder st p.order_id = some o) :
    midtransNotification now n st =
      ({ st with
          payments := st.payments.map
            (fun q => if q.id == p.id then applyNotifToPayment now n p else q),
          orders := st.orders.map
            (fun q =>
              if q.id == o.id then
                { o with
                  status := (orderTransition n.transaction_status o.status o.payment_status).1,
                  payment_status := (orderTransition n.transaction_status o.status o.payment_status).2 }
              else q) },
        WebhookResult.success) := by
  have ho' :
      findOrder
        { st with
          payments := st.payments.map
            (fun q => if q.id == p.id then applyNotifToPayment now n p else q) }
        p.order_id = some o := ho
  simp only [midtransNotification, hp, ho']

/-- C5: the reconciler is idempotent on derived state — processing the
identical payload twice succeeds both times, the second pass changes the
resolved payment only by appending one more webhook-log entry (status and
every other field unchanged), and leaves every order row exactly as after
the first pass. -/
theorem c5_webhook_idempotent (now : Nat) (n : Notif) (st : Store)
    (p : Payment) (o : Order)
    (hp : st.payments.find? (paymentMatches n) = some p)
    (ho : findOrder st p.order_id = some o) :
    (midtransNotification now n st).2 = WebhookResult.success ∧
    (midtransNotification now n (midtransNotification now n st).1).2
      = WebhookResult.success ∧
    (∃ p1, findPayment (midtransNotification now n st).1 p.id = some p1 ∧
      findPayment (midtransNotification now n (midtransNotification now n st).1).1 p.id
        = some { p1 with webhook_logs := p1.webhook_logs ++ [(now, n)] }) ∧
    (midtransNotification now n (midtransNotification now n st).1).1.orders
      = (midtransNotification now n st).1.orders := by
  have hpmem : p ∈ st.payments := List.mem_of_find?_eq_some hp
  have homem : o ∈ st.orders := List.mem_of_find?_eq_some ho
  have hpmatch : paymentMatches n p = true := List.find?_some hp
  have hoid : (o.id == p.order_id) = true := by
    simpa using List.find?_some ho
  have hofind : st.orders.find? (fun q => q.id == p.order_id) = some o := ho
  have e1 := midtrans_resolved_eq now n st p o hp ho
  -- the store after the first call
  rw [e1]
  -- the first call resolves the payment to its updated row
  have hp2 :
      (st.payments.map
          (fun q => if q.id == p.id then applyNotifToPayment now n p else q)).find?
          (paymentMatches n)
        = some (applyNotifToPayment now n p) := by
    have hf : ∀ q : Payment,
        (if q.id == p.id then applyNotifToPayment now n p else q) = q ∨
        (if q.id == p.id then applyNotifToPayment now n p else q) =
          (if p.id == p.id then applyNotifToPayment now n p else p) := by
      intro q
      by_cases h : (q.id == p.id) = true
      · right; simp [h]
      · left; simp [h]
    have hfp : paymentMatches n
        (if p.id == p.id then applyNotifToPayment now n p else p) = true := by
      simpa using paymentMatches_applyNotif now n p hpmatch
    have := find?_map_update
      (fun q => if q.id == p.id then applyNotifToPayment now n p else q)
      (paymentMatches n) st.payments p hp hf hfp
    simpa using this
  -- the first call leaves the order row found by the payment's order id
  -- as the transitioned row
  have ho2find :
      (st.orders.map
          (fun q =>
            if q.id == o.id then
              { o with
                status := (orderTransition n.transaction_status o.status o.payment_status).1,
                payment_status := (orderTransition n.transaction_status o.status o.payment_status).2 }
            else q)).find? (fun q => q.id == p.order_id)
        = some { o with
            status := (orderTransition n.transaction_status o.status o.payment_status).1,
            payment_status := (orderTransition n.transaction_status o.status o.payment_status).2 } := by
    have hf : ∀ q : Order,
        (if q.id == o.id then
          { o with
            status := (orderTransition n.transaction_status o.status o.payment_status).1,
            payment_status := (orderTransition n.transaction_status o.status o.payment_status).2 }
        else q) = q ∨
        (if q.id == o.id then
          { o with
            status := (orderTransition n.transaction_status o.status o.payment_status).1,
            payment_status := (orderTransition n.transaction_status o.status o.payment_status).2 }
        else q) =
          (if o.id == o.id then
            { o with
              status := (orderTransition n.transaction_status o.status o.payment_status).1,
              payment_status := (orderTransition n.transaction_status o.status o.payment_status).2 }
          else o) := by
      intro q
      by_cases h : (q.id == o.id) = true
      · right; simp [h]
      · left; simp [h]
    have hfp :
        ((if o.id == o.id then
            { o with
              status := (orderTransition n.transaction_status o.status o.payment_status).1,
              payment_status := (orderTransition n.transaction_status o.status o.payment_status).2 }
          else o).id == p.order_id) = true := by
      simpa using hoid
    have := find?_map_update
      (fun q =>
        if q.id == o.id then
          { o with
            status := (orderTransition n.transaction_status o.status o.payment_status).1,
            payment_status := (orderTransition n.transaction_status o.status o.payment_status).2 }
        else q)
      (fun q => q.id == p.order_id) st.orders o hofind hf hfp
    simpa using this
  have ho2 :
      findOrder
        { st with
          payments := st.payments.map
            (fun q => if q.id == p.id then applyNotifToPayment now n p else q),
          orders := st.orders.map
            (fun q =>
              if q.id == o.id then
                { o with
                  status := (orderTransition n.transaction_status o.status o.payment_status).1,
                  payment_status := (orderTransition n.transaction_status o.status o.payment_status).2 }
              else q) }
        (applyNotifToPayment now n p).order_id
      = some { o with
          status := (orderTransition n.transaction_status o.status o.payment_status).1,
          payment_status := (orderTransition n.transaction_status o.status o.payment_status).2 } :=
    ho2find
  have e2 := midtrans_resolved_eq now n
    { st with
      payments := st.payments.map
        (fun q => if q.id == p.id then applyNotifToPayment now n p else q),
      orders := st.orders.map
        (fun q =>
          if q.id == o.id then
            { o with
              status := (orderTransition n.transaction_status o.status o.payment_status).1,
              payment_status := (orderTransition n.transaction_status o.status o.payment_status).2 }
          else q) }
    (applyNotifToPayment now n p)
    { o with
      status := (orderTransition n.transaction_status o.status o.payment_status).1,
      payment_status := (orderTransition n.transaction_status o.status o.payment_status).2 }
    hp2 ho2
  rw [e2]
  refine ⟨rfl, rfl, ⟨applyNotifToPayment now n p, ?_, ?_⟩, ?_⟩
  · exact find?_id_map_self (fun x : Payment => x.id) st.payments p
      (applyNotifToPayment now n p) hpmem rfl
  · have hmem2 : applyNotifToPayment now n p ∈
        st.payments.map
          (fun q => if q.id == p.id then applyNotifToPayment now n p else q) :=
      List.mem_of_find?_eq_some hp2
    rw [← applyNotif_idem]
    exact find?_id_map_self (fun x : Payment => x.id)
      (st.payments.map
        (fun q => if q.id == p.id then applyNotifToPayment now n p else q))
      (applyNotifToPayment now n p)
      (applyNotifToPayment now n (applyNotifToPayment now n p)) hmem2 rfl
  · -- the second pass maps every copy of the transitioned row to itself
    have hTrans :
        orderTransition n.transaction_status
            (orderTransition n.transaction_status o.status o.payment_status).1
            (orderTransition n.transaction_status o.status o.payment_status).2
          = orderTransition n.transaction_status o.status o.payment_status :=
      orderTransition_idem n.transaction_status o.status o.payment_status
    have hself : ∀ q ∈
        st.orders.map
          (fun q =>
            if q.id == o.id then
              { o with
                status := (orderTransition n.transaction_status o.status o.payment_status).1,
                payment_status := (orderTransition n.transaction_status o.status o.payment_status).2 }
            else q),
        q.id = o.id →
        q = { o with
              status := (orderTransition n.transaction_status o.status o.payment_status).1,
              payment_status := (orderTransition n.transaction_status o.status o.payment_status).2 } := by
      intro q hq hqid
      rcases List.mem_map.mp hq with ⟨x, hx, hx'⟩
      by_cases h : (x.id == o.id) = true
      · rw [← hx', if_pos h]
      · exfalso
        rw [← hx', if_neg h] at hqid
        exact h (by simp [hqid])
    have := map_update_id (fun x : Order => x.id)
      (st.orders.map
        (fun q =>
          if q.id == o.id then
            { o with
              status := (orderTransition n.transaction_status o.status o.payment_status).1,
              payment_status := (orderTransition n.transaction_status o.status o.payment_status).2 }
          else q))
      o.id
      { o with
        status := (orderTransition n.transaction_status o.status o.payment_status).1,
        payment_status := (orderTransition n.transaction_status o.status o.payment_status).2 }
      hself
    dsimp only
    rw [hTrans]
    exact this

/-- A settlement notification matching the example payment. -/
def exNset : Notif :=
  { order_id := "ORD-1", transaction_id := some ("T1"),
    transaction_status := "settlement", fraud_status := some ("accept"),
    payment_type := some ("credit_card"), signature_key := none }

/-- Witness for C5: submitting the settlement notification twice against
the example store resolves both times and the second call succeeds. -/
theorem c5_webhook_idempotent_witness :
    exSt.payments.find? (paymentMatches exNset) = some exP ∧
    findOrder exSt exP.order_id = some exO ∧
    (midtransNotification 4 exNset (midtransNotification 4 exNset exSt).1).2
      = WebhookResult.success :=
  ⟨by decide, by decide,
    (c5_webhook_idempotent 4 exNset exSt exP exO (by decide) (by decide)).2.1⟩

/-- Payment A: matches the example notification only by gateway
transaction id, and sits first in the table. -/
def c8PA : Payment :=
  { id := 1, order_id := 10, user_id := 5, payment_method := some ("midtrans"),
    midtrans_transaction_id := some ("TX"), midtrans_order_id := some ("MO-A"),
    amount := 100, status := "pending", fraud_status := none,
    payment_date := none, expiry_time := none, payment_url := none,
    signature_key := none, raw_response := {}, webhook_logs := [] }

/-- Payment B: matches the example notification by internal order id, and
sits second in the table. -/
def c8PB : Payment :=
  { id := 2, order_id := 20, user_id := 6, payment_method := some ("midtrans"),
    midtrans_transaction_id := some ("TY"), midtrans_order_id := some ("MO-B"),
    amount := 200, status := "pending", fraud_status := none,
    payment_date := none, expiry_time := none, payment_url := none,
    signature_key := none, raw_response := {}, webhook_logs := [] }

/-- A store holding both payments. -/
def c8St : Store :=
  { products := [], addresses := [], carts := [], orders := [],
    orderItems := [], payments := [c8PA, c8PB] }

/-- A notification whose order_id names payment B's internal order id and
whose transaction_id names payment A's gateway transaction id. -/
def c8N : Notif :=
  { order_id := "20", transaction_id := some ("TX"),
    transaction_status := "settlement", fraud_status := none,
    payment_type := none, signature_key := none }

/-- Counterexample for C8: the spec's prioritized lookup (internal order
id first) designates payment B, but the handler's single disjunctive
`findOne` takes the first row matching any key — it updates payment A to
`settlement` and leaves payment B untouched at `pending`. -/
theorem c8_lookup_counterexample :
    resolvePrioritized c8N c8St.payments = some c8PB ∧
    (midtransNotification 5 c8N c8St).2 = WebhookResult.success ∧
    (findPayment (midtransNotification 5 c8N c8St).1 c8PB.id).map
        (fun p => p.status) = some ("pending") ∧
    (findPayment (midtransNotification 5 c8N c8St).1 c8PA.id).map
        (fun p => p.status) = some ("settlement") := by decide

/-- C8 (amended): the handler resolves a notification to the first Payment
matching any of the three keys in one disjunctive lookup (not a prioritized
three-stage match) and updates that payment's status; when no payment
matches any key it returns not-found, mutates nothing, and answers the same
on every retry. -/
theorem c8_webhook_lookup (now now2 : Nat) (n : Notif) (st : Store) :
    ((∀ p ∈ st.payments, paymentMatches n p = false) →
      midtransNotification now n st = (st, WebhookResult.notFound) ∧
      midtransNotification now2 n st = (st, WebhookResult.notFound)) ∧
    (∀ p, st.payments.find? (paymentMatches n) = some p →
      (midtransNotification now n st).2 = WebhookResult.success ∧
      ∃ p', findPayment (midtransNotification now n st).1 p.id = some p' ∧
        p'.status = n.transaction_status) := by
  constructor
  · intro hmiss
    have hnone : st.payments.find? (paymentMatches n) = none :=
      List.find?_eq_none.mpr (by
        intro x hx
        simp [hmiss x hx])
    constructor <;> simp only [midtransNotification, hnone]
  · intro p hp
    have hpmem : p ∈ st.payments := List.mem_of_find?_eq_some hp
    cases ho : findOrder
        { st with
          payments :=
            st.payments.map
              (fun q => if q.id == p.id then applyNotifToPayment now n p else q) }
        p.order_id with
    | none =>
      simp only [midtransNotification, hp, ho]
      exact ⟨trivial, applyNotifToPayment now n p,
        find?_id_map_self (fun x : Payment => x.id) st.payments p
          (applyNotifToPayment now n p) hpmem rfl, rfl⟩
    | some o =>
      simp only [midtransNotification, hp, ho]
      exact ⟨trivial, applyNotifToPayment now n p,
        find?_id_map_self (fun x : Payment => x.id) st.payments p
          (applyNotifToPayment now n p) hpmem rfl, rfl⟩

/-- A notification matching nothing in the example store. -/
def c8Nmiss : Notif :=
  { order_id := "NOPE", transaction_id := some ("NOTX"),
    transaction_status := "settlement", fraud_status := none,
    payment_type := none, signature_key := none }

/-- Witness for the amended C8: an unmatched notification leaves the
example store untouched with a not-found answer, and a matched one is
processed successfully. -/
theorem c8_webhook_lookup_witness :
    midtransNotification 3 c8Nmiss exSt = (exSt, WebhookResult.notFound) ∧
    (midtransNotification 5 c8N c8St).2 = WebhookResult.success :=
  ⟨((c8_webhook_lookup 3 3 c8Nmiss exSt).1 (by decide)).1,
    ((c8_webhook_lookup 5 5 c8N c8St).2 c8PA (by decide)).1⟩

/-! ## Checkout lemmas -/

/-- A successful validation pass returns exactly the input lines, each
paired with the product its option held. -/
theorem validateItems_ok_forall2 (js : List (CartItem × Option Product))
    (valid : List (CartItem × Product))
    (h : validateItems js = Except.ok valid) :
    List.Forall₂ (fun a b => a.1 = b.1 ∧ a.2 = some b.2) js valid := by
  induction js generalizing valid with
  | nil =>
    simp only [validateItems] at h
    cases h
    exact List.Forall₂.nil
  | cons x rest ih =>
    obtain ⟨c, po⟩ := x
    cases po with
    | none =>
      simp only [validateItems] at h
      exact Except.noConfusion h
    | some p =>
      simp only [validateItems] at h
      by_cases hact : (!p.is_active) = true
      · rw [if_pos hact] at h; exact Except.noConfusion h
      · rw [if_neg hact] at h
        by_cases hstock : p.stock_quantity < c.quantity
        · rw [if_pos hstock] at h; exact Except.noConfusion h
        · rw [if_neg hstock] at h
          cases hr : validateItems rest with
          | error m => rw [hr] at h; exact Except.noConfusion h
          | ok r =>
            rw [hr] at h
            cases h
            exact List.Forall₂.cons ⟨rfl, rfl⟩ (ih r hr)

/-- Every line that survives validation is active and within stock. -/
theorem validateItems_ok_bounds (js : List (CartItem × Option Product))
    (valid : List (CartItem × Product))
    (h : validateItems js = Except.ok valid) :
    ∀ b ∈ valid, b.2.is_active = true ∧ b.1.quantity ≤ b.2.stock_quantity := by
  induction js generalizing valid with
  | nil =>
    simp only [validateItems] at h
    cases h
    intro b hb
    cases hb
  | cons x rest ih =>
    obtain ⟨c, po⟩ := x
    cases po with
    | none =>
      simp only [validateItems] at h
      exact Except.noConfusion h
    | some p =>
      simp only [validateItems] at h
      by_cases hact : (!p.is_active) = true
      · rw [if_pos hact] at h; exact Except.noConfusion h
      · rw [if_neg hact] at h
        by_cases hstock : p.stock_quantity < c.quantity
        · rw [if_pos hstock] at h; exact Except.noConfusion h
        · rw [if_neg hstock] at h
          cases hr : validateItems rest with
          | error m => rw [hr] at h; exact Except.noConfusion h
          | ok r =>
            rw [hr] at h
            cases h
            intro b hb
            rcases List.mem_cons.mp hb with hb | hb
            · subst hb
              exact ⟨by simpa using hact, le_of_not_lt hstock⟩
            · exact ih r hr b hb

/-- Inversion of a successful checkout: every gate passed, and the order,
items and result store are exactly the ones built in the final block. -/
theorem createOrder_created_inv (gen : Nat → String) (now uid : Nat)
    (req : CreateOrderReq) (oid : Nat) (iids : Nat → Nat) (st : Store)
    (o : Order) (items : List OrderItem)
    (h : (createOrder gen now uid req oid iids st).2
      = CreateOrderResult.created o items) :
    ∃ a valid num,
      st.addresses.find?
          (fun a => a.id == req.address_id && a.user_id == uid && a.is_active)
        = some a ∧
      validateItems (joinProducts st (selectedCarts st uid req.cart_item_ids))
        = Except.ok valid ∧
      pickOrderNumber gen st.orders = some num ∧
      o = builtOrder now uid req oid num valid ∧
      items = builtItems iids oid valid ∧
      (createOrder gen now uid req oid iids st).1
        = checkoutStore uid st valid o items := by
  cases ha : st.addresses.find?
      (fun a => a.id == req.address_id && a.user_id == uid && a.is_active) with
  | none =>
    simp only [createOrder, ha] at h
    exact CreateOrderResult.noConfusion h
  | some a =>
    cases hc : ((selectedCarts st uid req.cart_item_ids).length == 0) with
    | true =>
      simp only [createOrder, ha, hc] at h
      exact CreateOrderResult.noConfusion h
    | false =>
      cases hv : validateItems
          (joinProducts st (selectedCarts st uid req.cart_item_ids)) with
      | error m =>
        simp only [createOrder, ha, hc, hv] at h
        exact CreateOrderResult.noConfusion h
      | ok valid =>
        cases hn : pickOrderNumber gen st.orders with
        | none =>
          simp only [createOrder, ha, hc, hv, hn] at h
          exact CreateOrderResult.noConfusion h
        | some num =>
          have hres :
              createOrder gen now uid req oid iids st
                = (checkoutStore uid st valid
                    (builtOrder now uid req oid num valid)
                    (builtItems iids oid valid),
                  CreateOrderResult.created
                    (builtOrder now uid req oid num valid)
                    (builtItems iids oid valid)) := by
            simp only [createOrder, ha, hc, hv, hn, Bool.false_eq_true, if_false]
          rw [hres] at h
          have h2 : CreateOrderResult.created
              (builtOrder now uid req oid num valid)
              (builtItems iids oid valid)
            = CreateOrderResult.created o items := h
          injection h2 with ho hi
          refine ⟨a, valid, num, rfl, rfl, rfl, ho.symm, hi.symm, ?_⟩
          rw [hres, ← ho, ← hi]

/-- C3: checkout is all-or-nothing — whenever `createOrder` does not
answer `created`, the returned store is exactly the input store: no order
row, no line item, no stock change and no cart deletion is observable. -/
theorem c3_checkout_atomic (gen : Nat → String) (now uid : Nat)
    (req : CreateOrderReq) (oid : Nat) (iids : Nat → Nat) (st : Store)
    (h : ∀ o items, (createOrder gen now uid req oid iids st).2
      ≠ CreateOrderResult.created o items) :
    (createOrder gen now uid req oid iids st).1 = st := by
  cases ha : st.addresses.find?
      (fun a => a.id == req.address_id && a.user_id == uid && a.is_active) with
  | none => simp [createOrder, ha]
  | some a =>
    cases hc : ((selectedCarts st uid req.cart_item_ids).length == 0) with
    | true => simp [createOrder, ha, hc]
    | false =>
      cases hv : validateItems
          (joinProducts st (selectedCarts st uid req.cart_item_ids)) with
      | error m => simp [createOrder, ha, hc, hv]
      | ok valid =>
        cases hn : pickOrderNumber gen st.orders with
        | none => simp [createOrder, ha, hc, hv, hn]
        | some num =>
          exfalso
          exact h (builtOrder now uid req oid num valid)
            (builtItems iids oid valid)
            (by simp only [createOrder, ha, hc, hv, hn, Bool.false_eq_true, if_false])

/-- The checkout fixture store: one product, one address, one cart line. -/
def coProd : Product :=
  { id := 3, name := "Leash", sku := "SKU3", price := 100000,
    stock_quantity := 5, is_active := true }

/-- The checkout fixture address, owned by user 5. -/
def coAddr : Address := { id := 2, user_id := 5, is_active := true }

/-- The checkout fixture cart line: user 5 wants 3 of product 3. -/
def coCart : CartItem := { id := 9, user_id := 5, product_id := 3, quantity := 3 }

/-- The checkout fixture store. -/
def coSt : Store :=
  { products := [coProd], addresses := [coAddr], carts := [coCart],
    orders := [], orderItems := [], payments := [] }

/-- A deterministic order-number generator for fixtures. -/
def coGen : Nat → String := fun i => "ORD-" ++ toString i

/-- Deterministic line-item ids for fixtures. -/
def coItemIds : Nat → Nat := fun i => 100 + i

/-- A checkout request for all cart lines. -/
def coReqAll : CreateOrderReq :=
  { address_id := 2, shipping_method := none, notes := none,
    cart_item_ids := none }

/-- Witness for C3: a request with an unknown address fails and leaves the
fixture store untouched. -/
theorem c3_checkout_atomic_witness :
    (∀ o items, (createOrder coGen 0 5 { coReqAll with address_id := 99 } 77
        coItemIds coSt).2 ≠ CreateOrderResult.created o items) ∧
    (createOrder coGen 0 5 { coReqAll with address_id := 99 } 77
        coItemIds coSt).1 = coSt :=
  ⟨fun o items hne => by
      have hval : (createOrder coGen 0 5 { coReqAll with address_id := 99 } 77
          coItemIds coSt).2 = CreateOrderResult.notFound ("Address not found or inactive") := by
        decide
      rw [hval] at hne
      exact CreateOrderResult.noConfusion hne,
    c3_checkout_atomic coGen 0 5 { coReqAll with address_id := 99 } 77
      coItemIds coSt (fun o items hne => by
        have hval : (createOrder coGen 0 5 { coReqAll with address_id := 99 } 77
            coItemIds coSt).2 = CreateOrderResult.notFound ("Address not found or inactive") := by
          decide
        rw [hval] at hne
        exact CreateOrderResult.noConfusion hne)⟩

/-- Zipping a list with equally many indices by a function that ignores
the index is a plain map. -/
theorem zipWith_ignore_fst {α β γ : Type} (h : α → γ) :
    ∀ (r : List β) (l : List α), r.length = l.length →
      List.zipWith (fun _ x => h x) r l = l.map h := by
  intro r
  induction r with
  | nil =>
    intro l hl
    cases l with
    | nil => rfl
    | cons x xs => simp at hl
  | cons b bs ih =>
    intro l hl
    cases l with
    | nil => simp at hl
    | cons x xs =>
      simp only [List.zipWith_cons_cons, List.map_cons]
      rw [ih xs (by simpa using hl)]

/-- The validated pairs keep the cart lines as their first components. -/
theorem forall2_map_fst (js : List (CartItem × Option Product))
    (valid : List (CartItem × Product))
    (h : List.Forall₂ (fun a b => a.1 = b.1 ∧ a.2 = some b.2) js valid) :
    js.map (fun a => a.1) = valid.map (fun b => b.1) := by
  induction h with
  | nil => rfl
  | cons hab _ ih =>
    simp only [List.map_cons, ih, hab.1]

/-- Through the join and validation, the (product id, quantity) pairs of
the created snapshot are exactly those of the selected cart lines. -/
theorem valid_pairs_map (st : Store) :
    ∀ (sel : List CartItem) (valid : List (CartItem × Product)),
      List.Forall₂ (fun a b => a.1 = b.1 ∧ a.2 = some b.2)
        (joinProducts st sel) valid →
      valid.map (fun x => (x.2.id, x.1.quantity))
        = sel.map (fun c => (c.product_id, c.quantity)) := by
  intro sel
  induction sel with
  | nil =>
    intro valid h
    cases h
    rfl
  | cons c rest ih =>
    intro valid h
    cases h with
    | cons hab htail =>
      obtain ⟨h1, h2⟩ := hab
      rename_i b l2
      have hfind : st.products.find? (fun p => p.id == c.product_id)
          = some b.2 := h2
      have hid := List.find?_some hfind
      simp only [List.map_cons, ih l2 htail]
      have hbid : b.2.id = c.product_id := by simpa using hid
      have hbq : b.1 = c := h1.symm
      rw [hbid, hbq]

/-- Every selected cart line belongs to the requesting user. -/
theorem selectedCarts_user (st : Store) (uid : Nat) (ids : Option (List Nat))
    (c : CartItem) (hc : c ∈ selectedCarts st uid ids) :
    (c.user_id == uid) = true := by
  cases ids with
  | none =>
    simp only [selectedCarts] at hc
    exact (List.mem_filter.mp hc).2
  | some l =>
    simp only [selectedCarts] at hc
    by_cases hl : 0 < l.length
    · rw [if_pos hl] at hc
      have := (List.mem_filter.mp hc).2
      exact (Bool.and_eq_true _ _ |>.mp this).2
    · rw [if_neg hl] at hc
      exact (List.mem_filter.mp hc).2

/-- A checkout request naming the cart lines to consume (here: the empty
list). -/
def coReqEmpty : CreateOrderReq :=
  { address_id := 2, shipping_method := none, notes := none,
    cart_item_ids := some [] }

/-- Counterexample for C10: an explicitly supplied empty `cart_item_ids`
list selects no listed cart line, yet the checkout is not rejected — it
falls back to all cart lines and succeeds with a non-empty line-item
snapshot built from an unlisted line. -/
theorem c10_empty_list_counterexample :
    coSt.carts.filter
        (fun c => (([] : List Nat)).contains c.id && c.user_id == 5) = [] ∧
    (createOrder coGen 0 5 coReqEmpty 77 coItemIds coSt).2
      = CreateOrderResult.created
          (builtOrder 0 5 coReqEmpty 77 ("ORD-0") [(coCart, coProd)])
          (builtItems coItemIds 77 [(coCart, coProd)]) ∧
    builtItems coItemIds 77 [(coCart, coProd)] ≠ [] := by decide

/-- C10 (amended): when the request supplies a NON-EMPTY cart_item_ids
list, the selection is exactly the listed lines that exist and belong to
the caller (invalid identifiers silently dropped); if that subset is empty
the checkout is rejected with the fixed empty-cart message (no error names
the invalid identifiers); on success the order is built from exactly that
subset.  An explicitly supplied empty list instead behaves as if no list
was given. -/
theorem c10_explicit_subset (gen : Nat → String) (now uid : Nat)
    (req : CreateOrderReq) (oid : Nat) (iids : Nat → Nat) (st : Store)
    (l : List Nat) (hreq : req.cart_item_ids = some l) (hl : l ≠ []) :
    selectedCarts st uid req.cart_item_ids
      = st.carts.filter (fun c => l.contains c.id && c.user_id == uid) ∧
    (∀ a, st.addresses.find?
        (fun a => a.id == req.address_id && a.user_id == uid && a.is_active)
        = some a →
      st.carts.filter (fun c => l.contains c.id && c.user_id == uid) = [] →
      createOrder gen now uid req oid iids st
        = (st, CreateOrderResult.badRequest ("No items in cart"))) ∧
    (∀ o items,
      (createOrder gen now uid req oid iids st).2
        = CreateOrderResult.created o items →
      items.map (fun it => (it.product_id, it.quantity))
        = (st.carts.filter (fun c => l.contains c.id && c.user_id == uid)).map
            (fun c => (c.product_id, c.quantity))) := by
  have hsel : selectedCarts st uid req.cart_item_ids
      = st.carts.filter (fun c => l.contains c.id && c.user_id == uid) := by
    simp only [selectedCarts, hreq]
    rw [if_pos (List.length_pos.mpr hl)]
  refine ⟨hsel, ?_, ?_⟩
  · intro a haddr hempty
    have h1 : selectedCarts st uid req.cart_item_ids = [] := hsel.trans hempty
    simp [createOrder, haddr, h1]
  · intro o items h
    obtain ⟨a, valid, num, ha, hv, hn, ho, hi, hst⟩ :=
      createOrder_created_inv gen now uid req oid iids st o items h
    have hf2 := validateItems_ok_forall2 _ _ hv
    have hmapq := valid_pairs_map st (selectedCarts st uid req.cart_item_ids)
      valid hf2
    have hlen : (List.range valid.length).length = valid.length :=
      List.length_range valid.length
    have hitems : items.map (fun it => (it.product_id, it.quantity))
        = valid.map (fun x => (x.2.id, x.1.quantity)) := by
      rw [hi]
      unfold builtItems
      rw [List.map_zipWith]
      exact zipWith_ignore_fst (fun x => (x.2.id, x.1.quantity))
        (List.range valid.length) valid hlen
    rw [hitems, hmapq, hsel]

/-- A checkout request listing exactly the fixture cart line. -/
def coReqIds : CreateOrderReq :=
  { address_id := 2, shipping_method := none, notes := none,
    cart_item_ids := some [9] }

/-- Witness for the amended C10 at the fixture store. -/
theorem c10_explicit_subset_witness :
    selectedCarts coSt 5 coReqIds.cart_item_ids
      = coSt.carts.filter (fun c => [9].contains c.id && c.user_id == 5) :=
  (c10_explicit_subset coGen 0 5 coReqIds 77 coItemIds coSt [9] rfl
    (by decide)).1

/-- Each created line item snapshots its validated line's product name,
sku and price, with total = price × quantity. -/
theorem forall2_items (iids : Nat → Nat) (oid : Nat) :
    ∀ (idxs : List Nat) (valid : List (CartItem × Product)),
      idxs.length = valid.length →
      List.Forall₂ (fun (x : CartItem × Product) (it : OrderItem) =>
          it.product_name = x.2.name ∧ it.product_sku = x.2.sku ∧
          it.unit_price = x.2.price ∧ it.quantity = x.1.quantity ∧
          it.total_price = x.2.price * x.1.quantity)
        valid
        (List.zipWith (fun idx x => buildOrderItem iids oid idx x) idxs valid) := by
  intro idxs
  induction idxs with
  | nil =>
    intro valid hlen
    cases valid with
    | nil => exact List.Forall₂.nil
    | cons x xs => simp at hlen
  | cons i is ih =>
    intro valid hlen
    cases valid with
    | nil => exact List.Forall₂.nil
    | cons x xs =>
      exact List.Forall₂.cons ⟨rfl, rfl, rfl, rfl, rfl⟩
        (ih xs (by simpa using hlen))

/-- C4: a successful checkout creates the order with status pending and
payment_status pending, zero shipping/tax/discount, subtotal the sum of
live price × quantity over the validated lines, total = subtotal +
shipping + tax − discount; each line item snapshots name, sku and
unit_price with total_price = unit_price × quantity; and the consumed
cart lines no longer exist. -/
theorem c4_checkout_success (gen : Nat → String) (now uid : Nat)
    (req : CreateOrderReq) (oid : Nat) (iids : Nat → Nat) (st : Store)
    (o : Order) (items : List OrderItem)
    (h : (createOrder gen now uid req oid iids st).2
      = CreateOrderResult.created o items) :
    o.status = "pending" ∧ o.payment_status = "pending" ∧
    o.shipping_cost = 0 ∧ o.tax_amount = 0 ∧ o.discount_amount = 0 ∧
    o.total_amount
      = o.subtotal + o.shipping_cost + o.tax_amount - o.discount_amount ∧
    (∃ valid,
      validateItems (joinProducts st (selectedCarts st uid req.cart_item_ids))
        = Except.ok valid ∧
      o.subtotal = subtotalOf valid ∧
      List.Forall₂ (fun (x : CartItem × Product) (it : OrderItem) =>
          it.product_name = x.2.name ∧ it.product_sku = x.2.sku ∧
          it.unit_price = x.2.price ∧ it.quantity = x.1.quantity ∧
          it.total_price = x.2.price * x.1.quantity) valid items) ∧
    (∀ c ∈ selectedCarts st uid req.cart_item_ids,
      c ∉ (createOrder gen now uid req oid iids st).1.carts) := by
  obtain ⟨a, valid, num, ha, hv, hn, ho, hi, hst⟩ :=
    createOrder_created_inv gen now uid req oid iids st o items h
  subst ho
  subst hi
  refine ⟨rfl, rfl, rfl, rfl, rfl, rfl, ⟨valid, hv, rfl, ?_⟩, ?_⟩
  · unfold builtItems
    exact forall2_items iids oid (List.range valid.length) valid
      (List.length_range valid.length)
  · intro c hcsel
    rw [hst]
    intro hmem
    have hp := (List.mem_filter.mp hmem).2
    have huser := selectedCarts_user st uid req.cart_item_ids c hcsel
    have hself : selectedCarts st uid req.cart_item_ids
        = valid.map (fun b => b.1) := by
      have := forall2_map_fst _ _ (validateItems_ok_forall2 _ _ hv)
      rw [← this]
      unfold joinProducts
      rw [List.map_map]
      exact (List.map_id _).symm
    have hcin : c ∈ valid.map (fun b => b.1) := hself ▸ hcsel
    have hcid : c.id ∈ valid.map (fun x => x.1.id) := by
      rcases List.mem_map.mp hcin with ⟨b, hb, hbc⟩
      exact List.mem_map.mpr ⟨b, hb, by rw [hbc]⟩
    have hcontains : ((valid.map (fun x => x.1.id)).contains c.id) = true := by
      simpa using hcid
    rw [hcontains, huser] at hp
    simp at hp

/-- Witness for C4 at the fixture store: the successful checkout and the
pending status of the created order. -/
theorem c4_checkout_success_witness :
    (createOrder coGen 0 5 coReqAll 77 coItemIds coSt).2
      = CreateOrderResult.created
          (builtOrder 0 5 coReqAll 77 ("ORD-0") [(coCart, coProd)])
          (builtItems coItemIds 77 [(coCart, coProd)]) ∧
    (builtOrder 0 5 coReqAll 77 ("ORD-0") [(coCart, coProd)]).status
      = "pending" :=
  ⟨by decide,
    (c4_checkout_success coGen 0 5 coReqAll 77 coItemIds coSt
      (builtOrder 0 5 coReqAll 77 ("ORD-0") [(coCart, coProd)])
      (builtItems coItemIds 77 [(coCart, coProd)]) (by decide)).1⟩

/-- A member of the left list of a `Forall₂` has a related member on the
right. -/
theorem forall2_mem_left {α β : Type} {r : α → β → Prop}
    {l1 : List α} {l2 : List β} (h : List.Forall₂ r l1 l2) :
    ∀ a ∈ l1, ∃ b ∈ l2, r a b := by
  induction h with
  | nil => intro a ha; cases ha
  | cons hab _ ih =>
    intro a ha
    rcases List.mem_cons.mp ha with ha | ha
    · exact ⟨_, List.mem_cons_self _ _, ha ▸ hab⟩
    · rcases ih a ha with ⟨b, hb, hr⟩
      exact ⟨b, List.mem_cons_of_mem _ hb, hr⟩

/-- A member of the right list of a `Forall₂` has a related member on the
left. -/
theorem forall2_mem_right {α β : Type} {r : α → β → Prop}
    {l1 : List α} {l2 : List β} (h : List.Forall₂ r l1 l2) :
    ∀ b ∈ l2, ∃ a ∈ l1, r a b := by
  induction h with
  | nil => intro b hb; cases hb
  | cons hab _ ih =>
    intro b hb
    rcases List.mem_cons.mp hb with hb | hb
    · exact ⟨_, List.mem_cons_self _ _, hb ▸ hab⟩
    · rcases ih b hb with ⟨a, ha, hr⟩
      exact ⟨a, List.mem_cons_of_mem _ ha, hr⟩

/-- Each validated pair's product is the store row found by the line's
product id: its id equals the line's product_id and it is a store row. -/
theorem valid_snd_facts (st : Store) (sel : List CartItem)
    (valid : List (CartItem × Product))
    (hf2 : List.Forall₂ (fun a b => a.1 = b.1 ∧ a.2 = some b.2)
      (joinProducts st sel) valid) :
    ∀ x ∈ valid, x.2.id = x.1.product_id ∧ x.2 ∈ st.products := by
  intro x hx
  rcases forall2_mem_right hf2 x hx with ⟨a, ha, h1, h2⟩
  rcases List.mem_map.mp ha with ⟨c, hc, hac⟩
  subst hac
  have hfind : st.products.find? (fun p => p.id == c.product_id)
      = some x.2 := h2
  refine ⟨?_, List.mem_of_find?_eq_some hfind⟩
  have := List.find?_some hfind
  have hid : x.2.id = c.product_id := by simpa using this
  rw [hid, ← h1]

/-- With pairwise-distinct snapshot product ids, the decrement loop writes
`snapshot stock − quantity` into each referenced row once (the row it is
keyed to) and leaves every other row unchanged. -/
theorem applyDecrements_eq :
    ∀ (valid : List (CartItem × Product)) (ps : List Product),
      (valid.map (fun x => x.2.id)).Nodup →
      applyDecrements ps valid
        = ps.map (fun pr =>
            match valid.find? (fun x => x.2.id == pr.id) with
            | some x =>
              { pr with stock_quantity := x.2.stock_quantity - x.1.quantity }
            | none => pr) := by
  intro valid
  induction valid with
  | nil =>
    intro ps _
    exact (List.map_id ps).symm
  | cons y rest ih =>
    intro ps hnd
    obtain ⟨c, p⟩ := y
    rw [List.map_cons, List.nodup_cons] at hnd
    obtain ⟨hhead, htail⟩ := hnd
    show applyDecrements
        (ps.map (fun q =>
          if q.id == p.id then
            { q with stock_quantity := p.stock_quantity - c.quantity }
          else q)) rest = _
    rw [ih _ htail, List.map_map]
    apply List.map_congr_left
    intro pr _
    by_cases hid : (p.id == pr.id) = true
    · have hpr : p.id = pr.id := by simpa using hid
      have hcond : (pr.id == p.id) = true := by simp [hpr]
      have hnone : rest.find? (fun x => x.2.id == pr.id) = none := by
        apply List.find?_eq_none.mpr
        intro x hx hxid
        apply hhead
        have h1 : x.2.id = pr.id := by simpa using hxid
        show p.id ∈ _
        rw [hpr, ← h1]
        exact List.mem_map_of_mem _ hx
      have hfind : ((c, p) :: rest).find? (fun x => x.2.id == pr.id)
          = some (c, p) :=
        List.find?_cons_of_pos _ (by simpa using hid)
      simp [Function.comp, hcond, hfind, hnone]
    · have hne : ¬ p.id = pr.id := by simpa using hid
      have hcond : (pr.id == p.id) = false := by
        simp only [beq_eq_false_iff_ne]
        exact fun h => hne h.symm
      have hfind : ((c, p) :: rest).find? (fun x => x.2.id == pr.id)
          = rest.find? (fun x => x.2.id == pr.id) :=
        List.find?_cons_of_neg _ (by simpa using hid)
      simp [Function.comp, hcond, hfind]

/-- The restoration loop preserves non-negative stock when every line's
quantity is non-negative. -/
theorem restoreStock_nonneg :
    ∀ (items : List OrderItem) (ps : List Product),
      (∀ pr ∈ ps, 0 ≤ pr.stock_quantity) →
      (∀ it ∈ items, 0 ≤ it.quantity) →
      ∀ pr ∈ restoreStock ps items, 0 ≤ pr.stock_quantity := by
  intro items
  induction items with
  | nil =>
    intro ps hps _ pr hpr
    exact hps pr hpr
  | cons it rest ih =>
    intro ps hps hq pr hpr
    cases hf : ps.find? (fun p => p.id == it.product_id) with
    | none =>
      rw [restoreStock, hf] at hpr
      exact ih ps hps (fun i hi => hq i (List.mem_cons_of_mem _ hi)) pr hpr
    | some p =>
      rw [restoreStock, hf] at hpr
      refine ih _ ?_ (fun i hi => hq i (List.mem_cons_of_mem _ hi)) pr hpr
      intro q' hq'
      rcases List.mem_map.mp hq' with ⟨q, hqmem, hq'eq⟩
      by_cases hc : (q.id == it.product_id) = true
      · rw [← hq'eq, if_pos hc]
        have hp : 0 ≤ p.stock_quantity :=
          hps p (List.mem_of_find?_eq_some hf)
        have hqty : 0 ≤ it.quantity := hq it (List.mem_cons_self _ _)
        exact add_nonneg hp hqty
      · rw [← hq'eq, if_neg (by simpa using hc)]
        exact hps q hqmem

/-- A cart line that passes validation: product present, active, and
requested quantity within stock. -/
def lineOk (y : CartItem × Option Product) : Prop :=
  ∃ q, y.2 = some q ∧ q.is_active = true ∧ y.1.quantity ≤ q.stock_quantity

/-- When the first failing line of the validation loop is an
insufficient-stock line, the loop stops with the message naming that
product and its available quantity. -/
theorem validateItems_first_insufficient :
    ∀ (pre : List (CartItem × Option Product)) (c : CartItem) (p : Product)
      (rest : List (CartItem × Option Product)),
      (∀ y ∈ pre, lineOk y) → p.is_active = true →
      p.stock_quantity < c.quantity →
      validateItems (pre ++ (c, some p) :: rest)
        = Except.error (insufficientStockMsg p.name p.stock_quantity) := by
  intro pre
  induction pre with
  | nil =>
    intro c p rest _ hact hstock
    simp only [List.nil_append, validateItems]
    rw [if_neg (by simp [hact]), if_pos hstock]
  | cons y pre' ih =>
    intro c p rest hok hact hstock
    obtain ⟨q, hq2, hqact, hqstock⟩ := hok y (List.mem_cons_self _ _)
    obtain ⟨c', po⟩ := y
    have hpo : po = some q := hq2
    subst hpo
    simp only [List.cons_append, validateItems]
    rw [if_neg (by simp [hqact]), if_neg (not_lt.mpr hqstock)]
    simp only [List.append_eq,
      ih c p rest (fun z hz => hok z (List.mem_cons_of_mem _ hz)) hact hstock]

/-- C2: stock_quantity never goes negative through checkout or
cancellation.  (a) a checkout with any line over stock is rejected;
(b) when the first failing line is over stock, the rejection message names
the product and the available quantity; (c) a successful checkout
decrements each referenced product's stock by exactly the ordered quantity
and leaves every stock non-negative; (d) cancellation preserves
non-negative stock. -/
theorem c2_stock_invariant (gen : Nat → String) (now uid : Nat)
    (req : CreateOrderReq) (oid : Nat) (iids : Nat → Nat) (st : Store) :
    ((∃ x ∈ joinProducts st (selectedCarts st uid req.cart_item_ids),
        ∃ p, x.2 = some p ∧ p.stock_quantity < x.1.quantity) →
      ∀ o items, (createOrder gen now uid req oid iids st).2
        ≠ CreateOrderResult.created o items) ∧
    (∀ a (pre : List (CartItem × Option Product)) (c : CartItem)
        (p : Product) (rest : List (CartItem × Option Product)),
      st.addresses.find?
          (fun a => a.id == req.address_id && a.user_id == uid && a.is_active)
        = some a →
      joinProducts st (selectedCarts st uid req.cart_item_ids)
        = pre ++ (c, some p) :: rest →
      (∀ y ∈ pre, lineOk y) → p.is_active = true →
      p.stock_quantity < c.quantity →
      (createOrder gen now uid req oid iids st).2
        = CreateOrderResult.badRequest
            (insufficientStockMsg p.name p.stock_quantity)) ∧
    ((∀ pr ∈ st.products, 0 ≤ pr.stock_quantity) →
      (st.products.map (fun p => p.id)).Nodup →
      ((selectedCarts st uid req.cart_item_ids).map
          (fun c => c.product_id)).Nodup →
      ∀ o items, (createOrder gen now uid req oid iids st).2
        = CreateOrderResult.created o items →
      (∃ valid,
        validateItems (joinProducts st (selectedCarts st uid req.cart_item_ids))
          = Except.ok valid ∧
        (createOrder gen now uid req oid iids st).1.products
          = st.products.map (fun pr =>
              match valid.find? (fun x => x.2.id == pr.id) with
              | some x =>
                { pr with stock_quantity := pr.stock_quantity - x.1.quantity }
              | none => pr)) ∧
      (∀ pr ∈ (createOrder gen now uid req oid iids st).1.products,
        0 ≤ pr.stock_quantity)) ∧
    (∀ (uid2 oid2 : Nat) (st2 : Store),
      (∀ pr ∈ st2.products, 0 ≤ pr.stock_quantity) →
      (∀ it ∈ st2.orderItems, 0 ≤ it.quantity) →
      ∀ pr ∈ (cancelOrder uid2 oid2 st2).1.products, 0 ≤ pr.stock_quantity) := by
  refine ⟨?_, ?_, ?_, ?_⟩
  · rintro ⟨x, hxjs, p, hx2, hover⟩ o items hcr
    obtain ⟨a, valid, num, ha, hv, hn, ho, hi, hst⟩ :=
      createOrder_created_inv gen now uid req oid iids st o items hcr
    have hf2 := validateItems_ok_forall2 _ _ hv
    rcases forall2_mem_left hf2 x hxjs with ⟨b, hbv, h1, h2⟩
    have hbp : b.2 = p := by
      have : some b.2 = some p := h2.symm.trans hx2
      exact Option.some_injective _ this
    have hb := validateItems_ok_bounds _ _ hv b hbv
    rw [hbp, ← h1] at hb
    exact absurd hb.2 (not_le.mpr hover)
  · intro a pre c p rest haddr hjoin hok hact hover
    have hjs_ne : joinProducts st (selectedCarts st uid req.cart_item_ids) ≠ [] := by
      rw [hjoin]
      simp
    have hselne : selectedCarts st uid req.cart_item_ids ≠ [] := by
      intro h0
      apply hjs_ne
      rw [h0]
      rfl
    have hlen : ((selectedCarts st uid req.cart_item_ids).length == 0) = false := by
      cases hsel : selectedCarts st uid req.cart_item_ids with
      | nil => exact absurd hsel hselne
      | cons z zs => rfl
    have hverr : validateItems
        (joinProducts st (selectedCarts st uid req.cart_item_ids))
        = Except.error (insufficientStockMsg p.name p.stock_quantity) := by
      rw [hjoin]
      exact validateItems_first_insufficient pre c p rest hok hact hover
    simp only [createOrder, haddr, hlen, Bool.false_eq_true, if_false, hverr]
  · intro hpos hndp hndc o items hcr
    obtain ⟨a, valid, num, ha, hv, hn, ho, hi, hst⟩ :=
      createOrder_created_inv gen now uid req oid iids st o items hcr
    have hf2 := validateItems_ok_forall2 _ _ hv
    have hfacts := valid_snd_facts st _ valid hf2
    have hfst : valid.map (fun b => b.1)
        = selectedCarts st uid req.cart_item_ids := by
      have := forall2_map_fst _ _ hf2
      rw [← this]
      unfold joinProducts
      rw [List.map_map]
      exact List.map_id _
    have hndv : (valid.map (fun x => x.2.id)).Nodup := by
      have h1 : valid.map (fun x => x.2.id)
          = valid.map (fun x => x.1.product_id) :=
        List.map_congr_left (fun x hx => (hfacts x hx).1)
      have h2 : valid.map (fun x => x.1.product_id)
          = ((selectedCarts st uid req.cart_item_ids).map
              (fun c => c.product_id)) := by
        rw [← hfst, List.map_map]
        rfl
      rw [h1, h2]
      exact hndc
    have hprods : (createOrder gen now uid req oid iids st).1.products
        = applyDecrements st.products valid := by
      rw [hst]
      rfl
    rw [applyDecrements_eq valid st.products hndv] at hprods
    have hchar : (createOrder gen now uid req oid iids st).1.products
        = st.products.map (fun pr =>
            match valid.find? (fun x => x.2.id == pr.id) with
            | some x =>
              { pr with stock_quantity := pr.stock_quantity - x.1.quantity }
            | none => pr) := by
      rw [hprods]
      apply List.map_congr_left
      intro pr hpr
      cases hfq : valid.find? (fun x => x.2.id == pr.id) with
      | none => rfl
      | some x =>
        have hxv : x ∈ valid := List.mem_of_find?_eq_some hfq
        have hxid : x.2.id = pr.id := by simpa using List.find?_some hfq
        have hxmem : x.2 ∈ st.products := (hfacts x hxv).2
        have hxeq : x.2 = pr :=
          List.inj_on_of_nodup_map hndp hxmem hpr hxid
        simp only [hxeq]
    refine ⟨⟨valid, hv, hchar⟩, ?_⟩
    intro pr' hpr'
    rw [hchar] at hpr'
    rcases List.mem_map.mp hpr' with ⟨pr, hpr, hpr'eq⟩
    cases hfq : valid.find? (fun x => x.2.id == pr.id) with
    | none =>
      rw [← hpr'eq]
      simp only [hfq]
      exact hpos pr hpr
    | some x =>
      have hxv : x ∈ valid := List.mem_of_find?_eq_some hfq
      have hxid : x.2.id = pr.id := by simpa using List.find?_some hfq
      have hxeq : x.2 = pr :=
        List.inj_on_of_nodup_map hndp (hfacts x hxv).2 hpr hxid
      have hb := (validateItems_ok_bounds _ _ hv x hxv).2
      rw [hxeq] at hb
      rw [← hpr'eq]
      simp only [hfq]
      exact sub_nonneg.mpr hb
  · intro uid2 oid2 st2 hpos2 hq
    cases hfo : st2.orders.find?
        (fun o => o.id == oid2 && o.user_id == uid2) with
    | none =>
      simp only [cancelOrder, hfo]
      exact hpos2
    | some o =>
      by_cases hstat : (!(o.status == "pending" || o.status == "confirmed")) = true
      · simp only [cancelOrder, hfo, if_pos hstat]
        exact hpos2
      · simp only [cancelOrder, hfo, if_neg hstat]
        intro pr hpr
        exact restoreStock_nonneg _ _ hpos2
          (fun it hit => hq it (List.mem_of_mem_filter hit)) pr hpr

/-- Witness for C2: the over-stock fixture request is rejected naming the
product and availability, and the successful fixture checkout leaves all
stocks non-negative. -/
theorem c2_stock_invariant_witness :
    (createOrder coGen 0 5 coReqAll 77 coItemIds
        { coSt with carts := [{ coCart with quantity := 9 }] }).2
      = CreateOrderResult.badRequest (insufficientStockMsg ("Leash") 5) ∧
    (∀ pr ∈ (createOrder coGen 0 5 coReqAll 77 coItemIds coSt).1.products,
      0 ≤ pr.stock_quantity) :=
  ⟨(c2_stock_invariant coGen 0 5 coReqAll 77 coItemIds
      { coSt with carts := [{ coCart with quantity := 9 }] }).2.1
      coAddr [] { coCart with quantity := 9 } coProd []
      (by decide) (by decide)
      (fun y hy => absurd hy (List.not_mem_nil y)) (by decide) (by decide),
    ((c2_stock_invariant coGen 0 5 coReqAll 77 coItemIds coSt).2.2.1
      (by decide) (by decide) (by decide)
      (builtOrder 0 5 coReqAll 77 ("ORD-0") [(coCart, coProd)])
      (builtItems coItemIds 77 [(coCart, coProd)]) (by decide)).2⟩

/-- Sum of quantities of the line items referencing product `i`. -/
def qtySum (items : List OrderItem) (i : Nat) : Int :=
  ((items.filter (fun it => it.product_id == i)).map (fun it => it.quantity)).sum

/-- With pairwise-distinct product ids, the restoration loop adds to every
product exactly the summed quantity of the line items referencing it. -/
theorem restoreStock_eq :
    ∀ (items : List OrderItem) (ps : List Product),
      (ps.map (fun p => p.id)).Nodup →
      restoreStock ps items
        = ps.map (fun pr =>
            { pr with stock_quantity := pr.stock_quantity + qtySum items pr.id }) := by
  intro items
  induction items with
  | nil =>
    intro ps _
    have h : ∀ pr ∈ ps,
        (fun pr =>
          { pr with stock_quantity := pr.stock_quantity + qtySum [] pr.id }) pr
          = id pr := by
      intro pr _
      show ({ pr with
          stock_quantity := pr.stock_quantity + qtySum [] pr.id } : Product) = pr
      rw [show qtySum [] pr.id = 0 from rfl, Int.add_zero]
    show ps = ps.map _
    rw [List.map_congr_left h, List.map_id]
  | cons it rest ih =>
    intro ps hnd
    cases hf : ps.find? (fun p => p.id == it.product_id) with
    | none =>
      rw [restoreStock, hf, ih ps hnd]
      apply List.map_congr_left
      intro pr hpr
      have hnomatch : (pr.id == it.product_id) = false := by
        have := List.find?_eq_none.mp hf pr hpr
        simpa using this
      have hcond : (it.product_id == pr.id) = false := by
        simp only [beq_eq_false_iff_ne] at hnomatch ⊢
        exact fun h => hnomatch h.symm
      simp only [qtySum, List.filter_cons, hcond, Bool.false_eq_true, if_false]
    | some p =>
      have hpmem : p ∈ ps := List.mem_of_find?_eq_some hf
      have hpid := List.find?_some hf
      have hids : (ps.map (fun q =>
          if q.id == it.product_id then
            { q with stock_quantity := p.stock_quantity + it.quantity }
          else q)).map (fun p => p.id) = ps.map (fun p => p.id) := by
        rw [List.map_map]
        apply List.map_congr_left
        intro q _
        by_cases hq : (q.id == it.product_id) = true
        · simp [Function.comp, hq]
        · simp [Function.comp, hq]
      have hnd2 : ((ps.map (fun q =>
          if q.id == it.product_id then
            { q with stock_quantity := p.stock_quantity + it.quantity }
          else q)).map (fun p => p.id)).Nodup := by
        rw [hids]; exact hnd
      rw [restoreStock, hf]
      show restoreStock (ps.map (fun q =>
          if q.id == it.product_id then
            { q with stock_quantity := p.stock_quantity + it.quantity }
          else q)) rest = _
      rw [ih _ hnd2, List.map_map]
      apply List.map_congr_left
      intro pr hpr
      by_cases hprid : (pr.id == it.product_id) = true
      · have hpeq : p = pr := by
          apply List.inj_on_of_nodup_map hnd hpmem hpr
          have h1 : p.id = it.product_id := by simpa using hpid
          have h2 : pr.id = it.product_id := by simpa using hprid
          rw [h1, h2]
        have hcond : (it.product_id == pr.id) = true := by
          have h2 : pr.id = it.product_id := by simpa using hprid
          simp [h2]
        simp only [Function.comp, hprid, if_true, qtySum, List.filter_cons,
          hcond, List.map_cons, List.sum_cons, hpeq]
        simp [add_assoc]
      · have hne : ¬ pr.id = it.product_id := by simpa using hprid
        have hcond : (it.product_id == pr.id) = false := by
          simp only [beq_eq_false_iff_ne]
          exact fun h => hne h.symm
        simp only [Function.comp, hprid, qtySum, List.filter_cons, hcond]
        simp [hprid]

/-- A shipped, paid order owned by user 5. -/
def c6OrderShipped : Order :=
  { id := 30, order_number := "ORD-30", user_id := 5, address_id := 2,
    subtotal := 100, shipping_cost := 0, tax_amount := 0, discount_amount := 0,
    total_amount := 100, status := "shipped", payment_status := "paid",
    shipping_method := none, notes := none, ordered_at := 0 }

/-- A store holding the shipped order. -/
def c6St : Store :=
  { products := [coProd], addresses := [], carts := [], orders := [c6OrderShipped],
    orderItems := [], payments := [] }

/-- Counterexample for C6: cancelling the shipped order is rejected with
the fixed message `Order cannot be cancelled at this stage`, which does
not contain the order's current status `shipped`; the store is untouched. -/
theorem c6_message_counterexample :
    (cancelOrder 5 30 c6St).2
      = CancelResult.invalidState ("Order cannot be cancelled at this stage") ∧
    ¬ (("shipped").toList <:+: ("Order cannot be cancelled at this stage").toList) ∧
    (cancelOrder 5 30 c6St).1 = c6St := by decide

/-- C6 (amended): an owned order in status pending or confirmed is
cancelled — status becomes cancelled, payment_status becomes failed
exactly when it was pending, and every product's stock grows by exactly
the summed quantity of this order's line items referencing it; an owned
order in any other status is rejected with the fixed invalid-state
message (which does not name the current status) and the store is
unchanged. -/
theorem c6_cancel_order (uid oid : Nat) (st : Store) (o : Order)
    (hfo : st.orders.find? (fun q => q.id == oid && q.user_id == uid) = some o)
    (hndp : (st.products.map (fun p => p.id)).Nodup) :
    ((o.status = "pending" ∨ o.status = "confirmed") →
      (cancelOrder uid oid st).2 = CancelResult.ok ∧
      (∃ o', findOrder (cancelOrder uid oid st).1 o.id = some o' ∧
        o'.status = "cancelled" ∧
        o'.payment_status
          = (if o.payment_status = "pending" then "failed"
             else o.payment_status)) ∧
      (cancelOrder uid oid st).1.products
        = st.products.map (fun pr =>
            { pr with stock_quantity :=
                pr.stock_quantity +
                  qtySum (st.orderItems.filter
                    (fun it => it.order_id == o.id)) pr.id })) ∧
    (¬(o.status = "pending" ∨ o.status = "confirmed") →
      cancelOrder uid oid st
        = (st, CancelResult.invalidState
            ("Order cannot be cancelled at this stage"))) := by
  have homem : o ∈ st.orders := List.mem_of_find?_eq_some hfo
  constructor
  · intro hs
    have hstat : (!(o.status == "pending" || o.status == "confirmed")) = false := by
      rcases hs with h | h <;> simp [h]
    have hred : cancelOrder uid oid st
        = ({ st with
            products := restoreStock st.products
              (st.orderItems.filter (fun it => it.order_id == o.id))
            orders := st.orders.map (fun q =>
              if q.id == o.id then
                (if o.payment_status == "pending" then
                  { o with status := "cancelled", payment_status := "failed" }
                else { o with status := "cancelled" })
              else q) },
          CancelResult.ok) := by
      simp only [cancelOrder, hfo, hstat, Bool.false_eq_true, if_false]
    refine ⟨by rw [hred], ?_, ?_⟩
    · refine ⟨(if o.payment_status == "pending" then
          { o with status := "cancelled", payment_status := "failed" }
        else { o with status := "cancelled" }), ?_, ?_, ?_⟩
      · rw [hred]
        exact find?_id_map_self (fun x : Order => x.id) st.orders o _ homem
          (by by_cases h : (o.payment_status == "pending") = true <;> simp [h])
      · by_cases h : (o.payment_status == "pending") = true <;> simp [h]
      · by_cases h : (o.payment_status == "pending") = true
        · have : o.payment_status = "pending" := by simpa using h
          simp [h, this]
        · have : ¬ o.payment_status = "pending" := by simpa using h
          simp [h, this]
    · rw [hred]
      show restoreStock st.products
          (st.orderItems.filter (fun it => it.order_id == o.id)) = _
      exact restoreStock_eq _ st.products hndp
  · intro hs
    have hstat : (!(o.status == "pending" || o.status == "confirmed")) = true := by
      have h1 : ¬ o.status = "pending" := fun h => hs (Or.inl h)
      have h2 : ¬ o.status = "confirmed" := fun h => hs (Or.inr h)
      simp [h1, h2]
    simp only [cancelOrder, hfo, if_pos hstat]

/-- A pending order of user 5 with one line item over the fixture
product. -/
def c6OrderPending : Order :=
  { id := 40, order_number := "ORD-40", user_id := 5, address_id := 2,
    subtotal := 300000, shipping_cost := 0, tax_amount := 0,
    discount_amount := 0, total_amount := 300000, status := "pending",
    payment_status := "pending", shipping_method := none, notes := none,
    ordered_at := 0 }

/-- The line item of the pending order: 3 units of product 3. -/
def c6Item : OrderItem :=
  { id := 101, order_id := 40, product_id := 3, quantity := 3,
    unit_price := 100000, total_price := 300000, product_name := "Leash",
    product_sku := "SKU3" }

/-- Store after the fixture checkout: stock already decremented to 2. -/
def c6StP : Store :=
  { products := [{ coProd with stock_quantity := 2 }], addresses := [],
    carts := [], orders := [c6OrderPending], orderItems := [c6Item],
    payments := [] }

/-- Witness for the amended C6: cancelling the pending fixture order
succeeds, and the stock comes back to its pre-order value. -/
theorem c6_cancel_order_witness :
    (cancelOrder 5 40 c6StP).2 = CancelResult.ok ∧
    (cancelOrder 5 40 c6StP).1.products = [coProd] :=
  ⟨((c6_cancel_order 5 40 c6StP c6OrderPending (by decide) (by decide)).1
      (Or.inl rfl)).1,
    by decide⟩

/-- C7: the Payment Initiator creates a Payment row iff the request
succeeds — absent/unowned order gives not-found; an existing Payment gives
conflict; a non-pending order gives invalid-state (distinct from
not-found); a gateway failure reports a dependency failure with the store
unchanged (re-attemptable); on success exactly one Payment row is
appended, with status pending and amount equal to the order's
total_amount. -/
theorem c7_create_payment (uid orderId : Nat) (gw : GatewayResp)
    (pid : Nat) (st : Store) :
    (st.orders.find? (fun o => o.id == orderId && o.user_id == uid) = none →
      createPayment uid orderId gw pid st
        = (st, PayResult.notFound ("Order not found"))) ∧
    (∀ o, st.orders.find? (fun o => o.id == orderId && o.user_id == uid)
        = some o →
      ((∀ p, st.payments.find? (fun p => p.order_id == orderId) = some p →
        createPayment uid orderId gw pid st
          = (st, PayResult.conflict ("Payment already exists for this order"))) ∧
      (st.payments.find? (fun p => p.order_id == orderId) = none →
        (¬ o.status = "pending" →
          createPayment uid orderId gw pid st
            = (st, PayResult.invalidState ("Order is not in pending status"))) ∧
        (o.status = "pending" →
          (∀ e, gw = GatewayResp.err e →
            createPayment uid orderId gw pid st
              = (st, PayResult.dependencyFailure
                  ("Failed to create payment transaction: " ++ e))) ∧
          (∀ token redirect, gw = GatewayResp.ok token redirect →
            (createPayment uid orderId gw pid st).2
              = PayResult.created pid token ∧
            (createPayment uid orderId gw pid st).1.payments
              = st.payments ++
                  [{ id := pid
                     order_id := o.id
                     user_id := uid
                     payment_method := some ("midtrans")
                     midtrans_transaction_id := none
                     midtrans_order_id := some o.order_number
                     amount := o.total_amount
                     status := "pending"
                     fraud_status := none
                     payment_date := none
                     expiry_time := none
                     payment_url := some redirect
                     signature_key := none
                     raw_response := ({ creation := some token } : RawResp)
                     webhook_logs := [] }]))))) := by
  constructor
  · intro hno
    simp only [createPayment, hno]
  · intro o ho
    refine ⟨?_, ?_⟩
    · intro p hp
      simp only [createPayment, ho, hp]
    · intro hnp
      refine ⟨?_, ?_⟩
      · intro hnotpending
        have hb : (!(o.status == "pending")) = true := by simp [hnotpending]
        simp only [createPayment, ho, hnp, if_pos hb]
      · intro hpending
        have hb : (!(o.status == "pending")) = false := by simp [hpending]
        refine ⟨?_, ?_⟩
        · intro e hge
          subst hge
          simp only [createPayment, ho, hnp, hb, Bool.false_eq_true, if_false]
        · intro token redirect hgw
          subst hgw
          simp only [createPayment, ho, hnp, hb, Bool.false_eq_true, if_false]
          exact ⟨trivial, trivial⟩

/-- A pending order for the payment fixtures. -/
def c7OrderP : Order :=
  { id := 10, order_number := "ORD-1", user_id := 5, address_id := 2,
    subtotal := 300000, shipping_cost := 0, tax_amount := 0,
    discount_amount := 0, total_amount := 300000, status := "pending",
    payment_status := "pending", shipping_method := none, notes := none,
    ordered_at := 0 }

/-- A store with only the pending order and no payment yet. -/
def c7St : Store :=
  { products := [], addresses := [], carts := [], orders := [c7OrderP],
    orderItems := [], payments := [] }

/-- Witness for C7: gateway failure leaves the fixture store untouched
with a dependency failure; gateway success creates the payment. -/
theorem c7_create_payment_witness :
    createPayment 5 10 (GatewayResp.err ("down")) 42 c7St
      = (c7St, PayResult.dependencyFailure
          ("Failed to create payment transaction: down")) ∧
    (createPayment 5 10 (GatewayResp.ok ("tok") ("url")) 42 c7St).2
      = PayResult.created 42 ("tok") :=
  ⟨(((c7_create_payment 5 10 (GatewayResp.err ("down")) 42 c7St).2 c7OrderP
      (by decide)).2 (by decide)).2 (by decide) |>.1 ("down") rfl,
    ((((c7_create_payment 5 10 (GatewayResp.ok ("tok") ("url")) 42 c7St).2
      c7OrderP (by decide)).2 (by decide)).2 (by decide)).2 ("tok") ("url")
      rfl |>.1⟩


end Petneeds
